import Mathlib

/-!
Verification development for `Tensile/BenchmarkProblems.py`: the solution-space
enumeration / deduplication engine and the multi-stage benchmark pipeline
orchestrator.

The Python module is shallowly embedded: mappings (Python dicts) become
association lists with Python's replace-in-place `update` semantics and
order-independent value equality; external collaborators (the `Solution`
constructor and its validity predicate, the custom-kernel store, the
generator/compiler pruning pass, the file system, the benchmarking client,
`BenchmarkProcess` construction) become fields of an explicit environment
record; file-system writes, directory pushes/pops and client invocations
become an explicit event trace; `printExit` (fatal process abort) becomes an
`Option Fatal` component of each result.
-/

namespace BenchmarkProblems

/-- A parameter value as it occurs in a `ProblemType` state or a solution
parameter mapping: strings, integers, booleans, and lists of integers (the
diagnostic code in `generateCustomKernelSolutions` converts list values to
tuples before set operations; tuple conversion is identity here). -/
inductive PVal where
  | s (v : String)
  | n (v : Int)
  | b (v : Bool)
  | ns (v : List Int)
deriving DecidableEq, Repr

/-- Python truthiness of a `PVal` (used for `problemType["Batched"]`-style
tests). -/
def pvalTruthy : PVal → Bool
  | .s v => v ≠ ""
  | .n v => v ≠ 0
  | .b v => v
  | .ns v => v ≠ []

/-- A `ProblemType` state: a mapping from parameter name to value. -/
def PT : Type := List (String × PVal)

instance : DecidableEq PT := by
  unfold PT
  infer_instance

instance : Repr PT := by
  unfold PT
  infer_instance

/-- First-match lookup in a `ProblemType` state (Python `d[k]` on a dict with
unique keys). -/
def ptLookup (d : PT) (k : String) : Option PVal :=
  match d with
  | [] => none
  | (k2, v) :: rest => if k = k2 then some v else ptLookup rest k

/-- Truthiness of `k in d and d[k]` (and of `d[k]` on dicts that the code
guarantees contain `k`; an absent key is modelled as falsy). -/
def ptTruthy (d : PT) (k : String) : Bool :=
  match ptLookup d k with
  | some v => pvalTruthy v
  | none => false

/-- One direction of Python dict equality for `ProblemType` states: every
key/value pair of `d1` is present in `d2`. -/
def ptSub (d1 d2 : PT) : Bool :=
  d1.all fun kv => ptLookup d2 kv.1 == some kv.2

/-- Python `==` on `ProblemType` states: order-independent value equality. -/
def ptBeq (d1 d2 : PT) : Bool :=
  ptSub d1 d2 && ptSub d2 d1

/-- A value in a solution parameter mapping: either a plain parameter value or
a nested `ProblemType` state (the `"ProblemType"` entry). -/
inductive SVal where
  | pv (v : PVal)
  | pt (d : List (String × PVal))
deriving DecidableEq, Repr

/-- Python truthiness of an `SVal`. -/
def svalTruthy : SVal → Bool
  | .pv v => pvalTruthy v
  | .pt d => d ≠ []

/-- A solution parameter mapping (a Python dict from parameter name to
value). -/
def Dict : Type := List (String × SVal)

instance : DecidableEq Dict := by
  unfold Dict
  infer_instance

instance : Repr Dict := by
  unfold Dict
  infer_instance

/-- First-match lookup (Python `d[k]` / `d.get(k)`). -/
def dictLookup (d : Dict) (k : String) : Option SVal :=
  match d with
  | [] => none
  | (k2, v) :: rest => if k = k2 then some v else dictLookup rest k

/-- Python `k in d`. -/
def dictHasKey (d : Dict) (k : String) : Bool :=
  (dictLookup d k).isSome

/-- Python `d[k] = v`: replace the value in place if the key exists (keeping
its position, as Python dicts do), otherwise append the new pair. -/
def dictInsert (d : Dict) (k : String) (v : SVal) : Dict :=
  match d with
  | [] => [(k, v)]
  | (k2, v2) :: rest => if k = k2 then (k, v) :: rest else (k2, v2) :: dictInsert rest k v

/-- Python `d.update(upds)`. -/
def dictUpdate (d : Dict) (upds : Dict) : Dict :=
  upds.foldl (fun acc kv => dictInsert acc kv.1 kv.2) d

/-- Python `==` on one direction: every pair of `d1` occurs in `d2` with an
equal value (nested `ProblemType` values compared order-independently). -/
def dictSub (d1 d2 : Dict) : Bool :=
  d1.all fun kv =>
    match dictLookup d2 kv.1 with
    | some (SVal.pv v) => (match kv.2 with | SVal.pv w => v == w | SVal.pt _ => false)
    | some (SVal.pt v) => (match kv.2 with | SVal.pv _ => false | SVal.pt w => ptBeq w v)
    | none => false

/-- Python `==` on solution parameter mappings: order-independent value
equality (spec §3: "equality/hash must be stable and independent of mapping
insertion order"). -/
def dictBeq (d1 d2 : Dict) : Bool :=
  dictSub d1 d2 && dictSub d2 d1

/-- A `Solution` object: its state mapping.  The external
`SolutionStructs.Solution` constructor assigns derived parameters, including
the `"Valid"` flag computed by the external validity predicate; it is a field
of the environment (`Env.mkSolution`). -/
structure Solution where
  state : Dict
deriving DecidableEq, Repr

/-- `Solution.__eq__`: value equality of the state mappings. -/
def solBeq (a b : Solution) : Bool :=
  dictBeq a.state b.state

/-- Truthiness of `solutionObject["Valid"]` (the external constructor always
assigns the key; an absent key is modelled as falsy). -/
def getValid (s : Solution) : Bool :=
  match dictLookup s.state "Valid" with
  | some v => svalTruthy v
  | none => false

/-- `solution["ProblemType"]`: the nested `ProblemType` state stored by the
constructor (an absent or non-mapping value is modelled as the empty state). -/
def getSolutionPT (s : Solution) : PT :=
  match dictLookup s.state "ProblemType" with
  | some (SVal.pt d) => d
  | _ => []

/-- A size entry of a problem-size enumeration (`{"Exact": [...]}`). -/
inductive SizeSpec where
  | exact (dims : List Int)
deriving DecidableEq, Repr

/-- The external `SolutionStructs.ProblemSizes` object, modelled by its list of
size entries (the `problemType` constructor argument and the derived counters
are not needed by the orchestrator logic embedded here). -/
structure ProblemSizes where
  sizes : List SizeSpec
deriving DecidableEq, Repr

/-- One benchmark step of a `BenchmarkProcess` (constructed by the external
`BenchmarkStructs.BenchmarkProcess`). -/
structure BenchmarkStep where
  name : String
  forkParams : Dict
  constantParams : Dict
  customKernels : List String
  customKernelWildcard : Bool
  problemSizes : ProblemSizes
  isFinal : Bool
deriving DecidableEq, Repr

/-- A `BenchmarkProcess`: problem type plus ordered steps. -/
structure BenchProcess where
  problemType : PT
  steps : List BenchmarkStep
deriving DecidableEq, Repr

/-- Fatal aborts (`printExit` and uncaught exception sites), carrying the data
the corresponding diagnostic embeds. -/
inductive Fatal where
  /-- `checkParametersAreValid` raised for a custom kernel's parameters. -/
  | invalidKernelParameters (kernelName : String)
  /-- Custom-kernel `ProblemType` mismatch with `failOnMismatch`; carries the
  key/value pairs present only in the benchmark's `ProblemType` and only in
  the custom kernel's `ProblemType` (the two set differences the diagnostic
  message prints). -/
  | customKernelMismatch (kernelName : String)
      (configOnly customOnly : List (String × PVal))
  /-- "Your parameters resulted in 0 valid solutions." -/
  | zeroValidSolutions
  /-- "write solutions and kernels results 0 valid soultion." -/
  | zeroAfterKernelWriter
  /-- `solutions[0]` on an empty list (unreachable from `benchmarkProblemType`,
  which checks emptiness first). -/
  | indexError
deriving DecidableEq, Repr

/-- The external collaborators and global parameters, passed explicitly. -/
structure Env where
  /-- `SolutionStructs.Solution(config)`: builds the solution object,
  assigning derived parameters including `"Valid"`. -/
  mkSolution : Dict → Solution
  /-- `str(solutionObject)` (used in rejection notices). -/
  solStr : Solution → String
  /-- `CustomKernels.getCustomKernelConfig(name, directory)` with the
  configured directory applied. -/
  getCustomKernelConfig : String → Dict
  /-- `BenchmarkStructs.checkParametersAreValid(params, validParameters)`:
  `true` when the checker returns normally, `false` when it raises.  It is
  applied to the kernel config without its `"ProblemType"` entry (the
  singleton-list wrapping of each value is representational). -/
  checkParamsOk : Dict → Bool
  /-- `BenchmarkStructs.constructForkPermutations`. -/
  constructForkPerms : Dict → List Dict
  /-- The in-place pruning `TensileCreateLibrary.writeSolutionsAndKernels`
  performs on the solution list in error-tolerant mode. -/
  prune : List Solution → List Solution
  /-- `os.path.exists`. -/
  fileExists : String → Bool
  /-- `ClientWriter.runClient` exit code, keyed by the step name whose
  generated configuration the client executes. -/
  runClientRet : String → Int
  /-- `BenchmarkStructs.BenchmarkProcess(problemTypeConfig, groupConfig)`. -/
  mkProcess : Dict → Dict → BenchProcess
  /-- `SolutionStructs.ProblemType(problemTypeConfig)`. -/
  ptOfConfig : Dict → PT
  /-- `str(problemType)`. -/
  ptName : PT → String
  /-- `globalParameters["WorkingPath"]` at entry of `main`, as path
  components. -/
  workingPathRoot : List String
  /-- `globalParameters["BenchmarkDataPath"]`. -/
  benchmarkDataPath : String
  /-- `globalParameters["BenchmarkProblemsPath"]`. -/
  benchmarkProblemsPath : String
  /-- `globalParameters["ForceRedoBenchmarkProblems"]`. -/
  forceRedo : Bool
  /-- `globalParameters["PrintSolutionRejectionReason"]`. -/
  printReject : Bool
  /-- `globalParameters["CSVExportWinner"]`. -/
  csvExportWinner : Bool
  /-- `globalParameters["ExitOnFails"]`. -/
  exitOnFails : Bool

/-- The candidate descriptor `generateForkedSolutions` builds for one fork
permutation: `{"ProblemType": deepcopy(problemType.state)}` updated with the
constant parameters and then with the permutation. -/
def buildForkedDict (problemType : PT) (constantParams : Dict) (perm : Dict) : Dict :=
  dictUpdate (dictUpdate [("ProblemType", SVal.pt problemType)] constantParams) perm

/-- Result of `generateForkedSolutions`: the returned solution list plus the
"rejecting solution ..." notices printed along the way (other `print1` output
is progress logging and is not modelled). -/
structure GFOut where
  solutions : List Solution
  rejectionNotices : List String
deriving Repr

/-- The loop of `generateForkedSolutions`; `solutionSet` is the set of already
kept solutions (Python-set membership is value equality). -/
def gfsAux (env : Env) (problemType : PT) (constantParams : Dict) :
    List Dict → List Solution → GFOut
  | [], _ => ⟨[], []⟩
  | perm :: rest, solutionSet =>
    let solutionObject := env.mkSolution (buildForkedDict problemType constantParams perm)
    if getValid solutionObject then
      if solutionSet.any (fun t => solBeq t solutionObject) then
        gfsAux env problemType constantParams rest solutionSet
      else
        let r := gfsAux env problemType constantParams rest (solutionObject :: solutionSet)
        ⟨solutionObject :: r.solutions, r.rejectionNotices⟩
    else
      let r := gfsAux env problemType constantParams rest solutionSet
      ⟨r.solutions,
        if env.printReject then
          ("rejecting solution " ++ env.solStr solutionObject) :: r.rejectionNotices
        else r.rejectionNotices⟩

/-- `generateForkedSolutions(problemType, constantParams, forkPermutations)`. -/
def generateForkedSolutions (env : Env) (problemType : PT) (constantParams : Dict)
    (forkPermutations : List Dict) : GFOut :=
  gfsAux env problemType constantParams forkPermutations []

/-- `getCustomKernelSolutionObj(kernelName)`: load the named config, check its
non-`ProblemType` parameters (the checker raises on an invalid entry), force
the kernel language to `"Assembly"`, tag the kernel name, and build the
solution object. -/
def getCustomKernelSolutionObj (env : Env) (kernelName : String) : Except Fatal Solution :=
  let kernelConfig := env.getCustomKernelConfig kernelName
  if env.checkParamsOk (kernelConfig.filter fun kv => kv.1 ≠ "ProblemType") then
    Except.ok (env.mkSolution
      (dictInsert (dictInsert kernelConfig "KernelLanguage" (SVal.pv (PVal.s "Assembly")))
        "CustomKernelName" (SVal.pv (PVal.s kernelName))))
  else
    Except.error (Fatal.invalidKernelParameters kernelName)

/-- `set(...)` of a `ProblemType`'s items, with list values converted to
tuples so they are hashable (identity here): duplicates removed. -/
def ptItems (d : PT) : List (String × PVal) :=
  d.dedup

/-- `aSet - (bSet & aSet)`: the item pairs of `a` that are not item pairs of
`b` (the diagnostic sorts them for display only). -/
def ptSetDiff (a b : PT) : List (String × PVal) :=
  (ptItems a).filter fun kv => !((ptItems b).contains kv)

/-- Result of `generateCustomKernelSolutions`: accepted solutions in input
order, plus the fatal abort (if any) that stopped the loop. -/
structure CKOut where
  solutions : List Solution
  fatal : Option Fatal
deriving Repr

/-- `generateCustomKernelSolutions(problemType, customKernels, failOnMismatch)`. -/
def generateCustomKernelSolutions (env : Env) (problemType : PT) :
    List String → Bool → CKOut
  | [], _ => ⟨[], none⟩
  | kernelName :: rest, failOnMismatch =>
    match getCustomKernelSolutionObj env kernelName with
    | Except.error f => ⟨[], some f⟩
    | Except.ok solution =>
      if !ptBeq (getSolutionPT solution) problemType then
        if failOnMismatch then
          ⟨[], some (Fatal.customKernelMismatch kernelName
            (ptSetDiff problemType (getSolutionPT solution))
            (ptSetDiff (getSolutionPT solution) problemType))⟩
        else
          generateCustomKernelSolutions env problemType rest failOnMismatch
      else
        if getValid solution then
          let r := generateCustomKernelSolutions env problemType rest failOnMismatch
          ⟨solution :: r.solutions, r.fatal⟩
        else
          generateCustomKernelSolutions env problemType rest failOnMismatch

/-- The arguments `writeBenchmarkFiles` passes to the external
`writeClientConfig` (the library snapshot and code-object paths are opaque
artifacts and not recorded). -/
structure ClientConfig where
  forBenchmark : Bool
  solutions : List Solution
  problemSizes : ProblemSizes
  stepName : String
  stepBaseDir : String
  useTileSelection : Bool
deriving DecidableEq, Repr

/-- Result of `writeBenchmarkFiles`: the client configuration written (if the
function got that far), the solution list after the in-place pruning by
`writeSolutionsAndKernels`, and the fatal abort, if any. -/
structure WBFOut where
  config : Option ClientConfig
  solutions : List Solution
  fatal : Option Fatal
deriving Repr

/-- `solution["MacroTile0"]`-style integer parameter read (the tile-aware
branch only runs on solutions that carry these integer parameters). -/
def getIntParam (s : Solution) (k : String) : Int :=
  match dictLookup s.state k with
  | some (SVal.pv (PVal.n i)) => i
  | _ => 0

/-- The `maxMacroTile0` accumulation loop of `writeBenchmarkFiles`. -/
def maxMacroTile0 (solutions : List Solution) : Int :=
  solutions.foldl
    (fun acc s => if getIntParam s "MacroTile0" > acc then getIntParam s "MacroTile0" else acc) 0

/-- The `maxMacroTile1` accumulation loop of `writeBenchmarkFiles`. -/
def maxMacroTile1 (solutions : List Solution) : Int :=
  solutions.foldl
    (fun acc s => if getIntParam s "MacroTile1" > acc then getIntParam s "MacroTile1" else acc) 0

/-- The synthetic `idealSizes` list of the tile-aware branch: `idealM = 36 *
maxMacroTile0`, `idealN = 36 * maxMacroTile1`, one exact entry per reduction
size, with a batch dimension of 1 inserted when the problem type is batched. -/
def idealSizesFor (problemType : PT) (maxMT0 maxMT1 : Int)
    (solutionSummationSizes : List Int) : List SizeSpec :=
  let idealM := 36 * maxMT0
  let idealN := 36 * maxMT1
  if ptTruthy problemType "Batched" then
    solutionSummationSizes.map fun idealK => SizeSpec.exact [idealM, idealN, 1, idealK]
  else
    solutionSummationSizes.map fun idealK => SizeSpec.exact [idealM, idealN, idealK]

/-- `writeBenchmarkFiles(stepBaseDir, solutions, problemSizes, stepName,
solutionSummationSizes)`.  The kernel-deduplication loops, naming schemes,
static-file copying and library serialization act on external artifacts and
are not recorded; `writeSolutionsAndKernels` appears as `env.prune` (the
in-place error-tolerant pruning of the solution list).  `problemType` is read
from the first solution before the pruning, exactly as in the source
(`solutions[0]["ProblemType"]`, an `IndexError` on an empty list). -/
def writeBenchmarkFiles (env : Env) (stepBaseDir : String) (solutions : List Solution)
    (problemSizes : ProblemSizes) (stepName : String)
    (solutionSummationSizes : List Int) : WBFOut :=
  match solutions with
  | [] => ⟨none, [], some Fatal.indexError⟩
  | s0 :: _ =>
    let problemType := getSolutionPT s0
    let pruned := env.prune solutions
    let cfg :=
      if ptTruthy problemType "TileAwareSelection" then
        let idealSizes := idealSizesFor problemType (maxMacroTile0 pruned) (maxMacroTile1 pruned)
          solutionSummationSizes
        ClientConfig.mk true pruned (ProblemSizes.mk idealSizes) stepName stepBaseDir true
      else
        ClientConfig.mk true pruned problemSizes stepName stepBaseDir false
    ⟨some cfg, pruned, if pruned.length = 0 then some Fatal.zeroAfterKernelWriter else none⟩

/-- Join path components (`os.path.join` on components). -/
def pathJoin (cs : List String) : String :=
  String.intercalate "/" cs

/-- `os.path.normpath` on components: a `".."` cancels the preceding
component (the paths built here never have a leading `".."`). -/
def normPath (cs : List String) : List String :=
  cs.foldl (fun acc c => if c = ".." then acc.dropLast else acc ++ [c]) []

/-- The step's results-file base:
`os.path.normpath(os.path.join(WorkingPath, "../Data", shortName))` where
`WorkingPath` is the stack below the step directory plus the step directory
(the `"source"` directory having just been popped). -/
def stepResultsBase (stack : List String) (shortName : String) : String :=
  pathJoin (normPath (stack ++ [shortName] ++ ["..", "Data", shortName]))

/-- Observable actions of a pipeline run, in program order. -/
inductive Event where
  /-- `pushWorkingPath(dir)`. -/
  | pushPath (dir : String)
  /-- `popWorkingPath()`. -/
  | popPath
  /-- `runClient(None, True, enableTileSelection)` returning `ret`. -/
  | clientRun (stepName : String) (tileSelection : Bool) (ret : Int)
  /-- The cache-hit branch: "# Already benchmarked; skipping." -/
  | skipCached (stepName : String)
  /-- `writeClientConfig(...)` inside `writeBenchmarkFiles`. -/
  | clientConfigWrite (cfg : ClientConfig)
  /-- `LibraryIO.writeSolutions(solutionsFileName, problemSizes, solutions)`. -/
  | solutionsYamlWrite (path : String) (sizes : ProblemSizes) (solutions : List Solution)
  /-- `shutil.copy(src, dst)` in `main`. -/
  | copyFile (src dst : String)
deriving DecidableEq, Repr

/-- Whether an event is a `pushWorkingPath`. -/
def isPushEv : Event → Bool
  | Event.pushPath _ => true
  | _ => false

/-- Whether an event is a `popWorkingPath`. -/
def isPopEv : Event → Bool
  | Event.popPath => true
  | _ => false

/-- Whether an event is a benchmarking-client invocation. -/
def isClientRunEv : Event → Bool
  | Event.clientRun _ _ _ => true
  | _ => false

/-- Whether an event is the solution-descriptor side-car write. -/
def isYamlWriteEv : Event → Bool
  | Event.solutionsYamlWrite _ _ _ => true
  | _ => false

/-- The mutable state `benchmarkProblemType` threads through its step loop. -/
structure BPState where
  stack : List String
  fails : Nat
  finalBase : Option String
deriving DecidableEq, Repr

/-- Result of one iteration of the step loop. -/
structure StepOut where
  state : BPState
  events : List Event
  fatal : Option Fatal
deriving Repr

/-- One iteration of the benchmark-step loop of `benchmarkProblemType`
(lines 222–311 of the source): push the step and source directories,
enumerate forked and custom-kernel solutions, abort if none, write the
benchmark files, pop back to the step directory, skip the client when the
results file is cached and the force-redo flag is unset, count a non-zero
client exit code, persist the solutions side-car, and pop the step
directory. -/
def runStep (env : Env) (problemType : PT) (enableTileSelection : Bool)
    (st : BPState) (step : BenchmarkStep) : StepOut :=
  let shortName := step.name
  let stack1 := st.stack ++ [shortName]
  let stepBaseDir := pathJoin stack1
  let stack2 := stack1 ++ ["source"]
  let ev0 := [Event.pushPath shortName, Event.pushPath "source"]
  let forkPermutations := env.constructForkPerms step.forkParams
  let regSolutions :=
    (generateForkedSolutions env problemType step.constantParams forkPermutations).solutions
  let kc := generateCustomKernelSolutions env problemType step.customKernels
    (!step.customKernelWildcard)
  match kc.fatal with
  | some f => ⟨⟨stack2, st.fails, st.finalBase⟩, ev0, some f⟩
  | none =>
    let solutions := regSolutions ++ kc.solutions
    if solutions.length = 0 then
      ⟨⟨stack2, st.fails, st.finalBase⟩, ev0, some Fatal.zeroValidSolutions⟩
    else
      let wbf := writeBenchmarkFiles env stepBaseDir solutions step.problemSizes shortName []
      let ev1 := ev0 ++
        (match wbf.config with
         | some cfg => [Event.clientConfigWrite cfg]
         | none => [])
      match wbf.fatal with
      | some f => ⟨⟨stack2, st.fails, st.finalBase⟩, ev1, some f⟩
      | none =>
        let ev2 := ev1 ++ [Event.popPath]
        let resultsFileBase := stepResultsBase st.stack shortName
        let finalBase := if step.isFinal then some resultsFileBase else st.finalBase
        let resultsFileName := resultsFileBase ++ ".csv"
        let solutionsFileName := resultsFileBase ++ ".yaml"
        let clientPhase :=
          if !env.fileExists resultsFileName || env.forceRedo then
            let returncode := env.runClientRet shortName
            ((if returncode ≠ 0 then st.fails + 1 else st.fails),
              [Event.clientRun shortName enableTileSelection returncode])
          else
            (st.fails, [Event.skipCached shortName])
        let ev4 := ev2 ++ clientPhase.2 ++
          [Event.solutionsYamlWrite solutionsFileName step.problemSizes wbf.solutions,
           Event.popPath]
        ⟨⟨st.stack, clientPhase.1, finalBase⟩, ev4, none⟩

/-- The step loop: run each step in order, stopping at a fatal abort. -/
def runSteps (env : Env) (problemType : PT) (enableTileSelection : Bool) :
    List BenchmarkStep → BPState → BPState × List Event × Option Fatal
  | [], st => (st, [], none)
  | step :: rest, st =>
    let out := runStep env problemType enableTileSelection st step
    match out.fatal with
    | some f => (out.state, out.events, some f)
    | none =>
      let r := runSteps env problemType enableTileSelection rest out.state
      (r.1, out.events ++ r.2.1, r.2.2)

/-- Result of `benchmarkProblemType`. -/
structure BPTOut where
  finalBase : Option String
  fails : Nat
  events : List Event
  fatal : Option Fatal
deriving Repr

/-- The two-digit group index of `"{}_{:02d}".format(...)`. -/
def pad2 (n : Nat) : String :=
  if n < 10 then "0" ++ toString n else toString n

/-- `benchmarkProblemType(problemTypeConfig, problemSizeGroupConfig,
problemSizeGroupIdx)` run with working-path stack `initialStack`: construct
the `BenchmarkProcess`, push the group directory, run every step, pop the
group directory, and return the final step's results base and the failure
count. -/
def benchmarkProblemType (env : Env) (initialStack : List String)
    (problemTypeConfig problemSizeGroupConfig : Dict) (problemSizeGroupIdx : Nat) : BPTOut :=
  let benchmarkProcess := env.mkProcess problemTypeConfig problemSizeGroupConfig
  let problemType := benchmarkProcess.problemType
  let enableTileSelection := ptTruthy problemType "TileAwareSelection"
  let groupName := env.ptName problemType ++ "_" ++ pad2 problemSizeGroupIdx
  let st0 : BPState := ⟨initialStack ++ [groupName], 0, none⟩
  let r := runSteps env problemType enableTileSelection benchmarkProcess.steps st0
  match r.2.2 with
  | some f => ⟨r.1.finalBase, r.1.fails, Event.pushPath groupName :: r.2.1, some f⟩
  | none =>
    ⟨r.1.finalBase, r.1.fails, (Event.pushPath groupName :: r.2.1) ++ [Event.popPath], none⟩

/-- Errors that terminate `main` abnormally. -/
inductive MainError where
  /-- `resultsFileBaseFinal` was `None` and `main` evaluated
  `resultsFileBase + ".csv"` (a Python `TypeError`). -/
  | pyTypeErrorNoneBase
  /-- A fatal abort (`printExit`) raised inside the pipeline. -/
  | fatal (f : Fatal)
deriving DecidableEq, Repr

/-- The working-path stack under which `benchmarkProblemType` runs: the root
with the benchmark-problems directory pushed. -/
def mainStack (env : Env) : List String :=
  env.workingPathRoot ++ [env.benchmarkProblemsPath]

/-- `dataPath = os.path.join(globalParameters["WorkingPath"],
globalParameters["BenchmarkDataPath"])`, computed before the push. -/
def mainDataPath (env : Env) : String :=
  pathJoin (env.workingPathRoot ++ [env.benchmarkDataPath])

/-- The stable output base name for a (problem type, group index) pair. -/
def mainPairBase (env : Env) (problemTypeConfig : Dict) (idx : Nat) : String :=
  let csvSuffix := if env.csvExportWinner then "_CSVWinner" else ""
  mainDataPath env ++ "/" ++ env.ptName (env.ptOfConfig problemTypeConfig)
    ++ "_" ++ pad2 idx ++ csvSuffix

/-- The body of `main`'s inner loop for one (problem type, size group) pair:
skip when the stable results file is cached, otherwise run the pipeline and
promote its terminal artifacts.  Returns the pair's failure count, its
events, and the error that stopped the process, if any. -/
def runPair (env : Env) (problemTypeConfig : Dict) (idx : Nat)
    (problemSizeGroupConfig : Dict) : Nat × List Event × Option MainError :=
  let newResultsFileName := mainPairBase env problemTypeConfig idx ++ ".csv"
  let newSolutionsFileName := mainPairBase env problemTypeConfig idx ++ ".yaml"
  let newGranularityFileName := mainPairBase env problemTypeConfig idx ++ ".gsp"
  if env.forceRedo || !env.fileExists newResultsFileName then
    let bpt := benchmarkProblemType env (mainStack env) problemTypeConfig
      problemSizeGroupConfig idx
    match bpt.fatal with
    | some f => (bpt.fails, bpt.events, some (MainError.fatal f))
    | none =>
      match bpt.finalBase with
      | none => (bpt.fails, bpt.events, some MainError.pyTypeErrorNoneBase)
      | some resultsFileBase =>
        let copies := [Event.copyFile (resultsFileBase ++ ".csv") newResultsFileName,
                       Event.copyFile (resultsFileBase ++ ".yaml") newSolutionsFileName]
        let copies :=
          if env.fileExists (resultsFileBase ++ "_Granularity.csv") then
            copies ++ [Event.copyFile (resultsFileBase ++ "_Granularity.csv")
              newGranularityFileName]
          else copies
        (bpt.fails, bpt.events ++ copies, none)
  else
    (0, [], none)

/-- `main`'s loop over the size groups of one problem-type entry. -/
def runPairs (env : Env) (problemTypeConfig : Dict) :
    List Dict → Nat → Nat × List Event × Option MainError
  | [], _ => (0, [], none)
  | gc :: rest, idx =>
    let r1 := runPair env problemTypeConfig idx gc
    match r1.2.2 with
    | some e => (r1.1, r1.2.1, some e)
    | none =>
      let r2 := runPairs env problemTypeConfig rest (idx + 1)
      (r1.1 + r2.1, r1.2.1 ++ r2.2.1, r2.2.2)

/-- `main`'s loop over the `BenchmarkProblems` entries; an entry with no
size-group configs defaults to exactly one empty group. -/
def runEntries (env : Env) : List (Dict × List Dict) → Nat × List Event × Option MainError
  | [] => (0, [], none)
  | (problemTypeConfig, groups) :: rest =>
    let problemSizeGroupConfigs := if groups.isEmpty then [([] : Dict)] else groups
    let r1 := runPairs env problemTypeConfig problemSizeGroupConfigs 0
    match r1.2.2 with
    | some e => (r1.1, r1.2.1, some e)
    | none =>
      let r2 := runEntries env rest
      (r1.1 + r2.1, r1.2.1 ++ r2.2.1, r2.2.2)

/-- Result of `main`. -/
structure MainOut where
  totalTestFails : Nat
  events : List Event
  error : Option MainError
  exitCode : Nat
deriving Repr

/-- `main(config)` for the `"BenchmarkProblems"` section: each entry is a
problem-type config with its size-group configs.  The process exit status is
1 exactly when the exit-on-fails policy is enabled and some client invocation
failed (provided no error terminated the run first). -/
def mainEntry (env : Env) (config : List (Dict × List Dict)) : MainOut :=
  let r := runEntries env config
  let events := Event.pushPath env.benchmarkProblemsPath :: r.2.1
  match r.2.2 with
  | some e => ⟨r.1, events, some e, 1⟩
  | none =>
    ⟨r.1, events ++ [Event.popPath], none,
      if env.exitOnFails && r.1 ≠ 0 then 1 else 0⟩

/-!  Concrete instantiations used to evaluate the embedding on closed inputs.
The external `Solution` constructor is instantiated to mark a candidate valid
exactly when its mapping has no `"Reject"` key, mirroring the shape of the
external validity predicate (a function of the full descriptor). -/

/-- A concrete external-collaborator environment for closed evaluations. -/
def sampleEnv : Env where
  mkSolution := fun d => ⟨dictInsert d "Valid" (SVal.pv (PVal.b (!dictHasKey d "Reject")))⟩
  solStr := fun _ => "sol"
  getCustomKernelConfig := fun _ => []
  checkParamsOk := fun _ => true
  constructForkPerms := fun _ => [[]]
  prune := fun s => s
  fileExists := fun _ => false
  runClientRet := fun _ => 0
  mkProcess := fun _ _ => ⟨[], []⟩
  ptOfConfig := fun _ => []
  ptName := fun _ => "Cijk_Ailk_Bljk_SB"
  workingPathRoot := ["work"]
  benchmarkDataPath := "2_BenchmarkData"
  benchmarkProblemsPath := "1_BenchmarkProblems"
  forceRedo := false
  printReject := true
  csvExportWinner := false
  exitOnFails := true

/-!  Lemmas about the enumeration loop. -/

/-- `solBeq` is symmetric: value equality of mappings does not depend on the
side of the comparison. -/
theorem solBeq_comm (a b : Solution) : solBeq a b = solBeq b a := by
  simp [solBeq, dictBeq, Bool.and_comm]

/-- Every solution the loop keeps was kept through the `Valid` check. -/
theorem gfsAux_valid (env : Env) (problemType : PT) (constantParams : Dict)
    (perms : List Dict) (seen : List Solution) :
    ∀ s ∈ (gfsAux env problemType constantParams perms seen).solutions, getValid s = true := by
  induction perms generalizing seen with
  | nil => simp [gfsAux]
  | cons perm rest ih =>
    intro s hs
    cases hv : getValid (env.mkSolution (buildForkedDict problemType constantParams perm)) with
    | true =>
      cases hd : (seen.any fun t =>
          solBeq t (env.mkSolution (buildForkedDict problemType constantParams perm))) with
      | true =>
        simp [gfsAux, hv, hd] at hs
        exact ih seen s hs
      | false =>
        simp [gfsAux, hv, hd] at hs
        rcases hs with rfl | h
        · exact hv
        · exact ih _ s h
    | false =>
      simp [gfsAux, hv] at hs
      exact ih seen s hs

/-- No kept solution is value-equal to a member of the incoming seen set. -/
theorem gfsAux_not_seen (env : Env) (problemType : PT) (constantParams : Dict)
    (perms : List Dict) (seen : List Solution) :
    ∀ t ∈ seen, ∀ s ∈ (gfsAux env problemType constantParams perms seen).solutions,
      solBeq t s = false := by
  induction perms generalizing seen with
  | nil => simp [gfsAux]
  | cons perm rest ih =>
    intro t ht s hs
    cases hv : getValid (env.mkSolution (buildForkedDict problemType constantParams perm)) with
    | true =>
      cases hd : (seen.any fun u =>
          solBeq u (env.mkSolution (buildForkedDict problemType constantParams perm))) with
      | true =>
        simp [gfsAux, hv, hd] at hs
        exact ih seen t ht s hs
      | false =>
        simp [gfsAux, hv, hd] at hs
        rcases hs with rfl | h
        · exact Bool.eq_false_iff.mpr (by simpa using List.any_eq_false.mp hd t ht)
        · exact ih _ t (List.mem_cons_of_mem _ ht) s h
    | false =>
      simp [gfsAux, hv] at hs
      exact ih seen t ht s hs

/-- The kept solutions are pairwise non-value-equal. -/
theorem gfsAux_pairwise (env : Env) (problemType : PT) (constantParams : Dict)
    (perms : List Dict) (seen : List Solution) :
    (gfsAux env problemType constantParams perms seen).solutions.Pairwise
      (fun a b => solBeq a b = false) := by
  induction perms generalizing seen with
  | nil => simp [gfsAux]
  | cons perm rest ih =>
    cases hv : getValid (env.mkSolution (buildForkedDict problemType constantParams perm)) with
    | true =>
      cases hd : (seen.any fun u =>
          solBeq u (env.mkSolution (buildForkedDict problemType constantParams perm))) with
      | true =>
        simp only [gfsAux, hv, hd]
        simpa using ih seen
      | false =>
        simp only [gfsAux, hv, hd]
        simp only [Bool.false_eq_true, if_false, if_true, List.pairwise_cons]
        refine ⟨fun b hb => ?_, ih _⟩
        exact gfsAux_not_seen env problemType constantParams rest _ _
          (List.mem_cons_self _ _) b hb
    | false =>
      simp only [gfsAux, hv]
      simpa using ih seen

/-- The kept solutions are a subsequence of the per-permutation candidates,
in permutation order. -/
theorem gfsAux_sublist (env : Env) (problemType : PT) (constantParams : Dict)
    (perms : List Dict) (seen : List Solution) :
    (gfsAux env problemType constantParams perms seen).solutions.Sublist
      (perms.map fun perm => env.mkSolution (buildForkedDict problemType constantParams perm)) := by
  induction perms generalizing seen with
  | nil => simp [gfsAux]
  | cons perm rest ih =>
    cases hv : getValid (env.mkSolution (buildForkedDict problemType constantParams perm)) with
    | true =>
      cases hd : (seen.any fun u =>
          solBeq u (env.mkSolution (buildForkedDict problemType constantParams perm))) with
      | true =>
        simp only [gfsAux, hv, hd, if_true, List.map_cons]
        exact (ih seen).cons _
      | false =>
        simp only [gfsAux, hv, hd, Bool.false_eq_true, if_false, if_true, List.map_cons]
        exact (ih _).cons₂ _
    | false =>
      simp only [gfsAux, hv, Bool.false_eq_true, if_false, List.map_cons]
      exact (ih seen).cons _

/-- Claim C1: for every problem type, constant-parameter mapping, and
fork-permutation list, `generateForkedSolutions` returns a list of solutions
in which every element has `Valid == true`, no two elements are value-equal,
and the elements appear in the first-seen order of the permutations that
produced them (the result is a subsequence of the per-permutation candidate
sequence). -/
theorem generateForkedSolutions_valid_nodup_ordered (env : Env) (problemType : PT)
    (constantParams : Dict) (forkPermutations : List Dict) :
    (∀ s ∈ (generateForkedSolutions env problemType constantParams forkPermutations).solutions,
      getValid s = true) ∧
    (generateForkedSolutions env problemType constantParams forkPermutations).solutions.Pairwise
      (fun a b => solBeq a b = false) ∧
    (generateForkedSolutions env problemType constantParams forkPermutations).solutions.Sublist
      (forkPermutations.map fun perm =>
        env.mkSolution (buildForkedDict problemType constantParams perm)) :=
  ⟨gfsAux_valid env problemType constantParams forkPermutations [],
   gfsAux_pairwise env problemType constantParams forkPermutations [],
   gfsAux_sublist env problemType constantParams forkPermutations []⟩

/-- If every permutation's candidate is invalid, nothing is kept. -/
theorem gfsAux_all_invalid (env : Env) (problemType : PT) (constantParams : Dict)
    (perms : List Dict) (seen : List Solution)
    (h : ∀ perm ∈ perms,
      getValid (env.mkSolution (buildForkedDict problemType constantParams perm)) = false) :
    (gfsAux env problemType constantParams perms seen).solutions = [] := by
  induction perms generalizing seen with
  | nil => simp [gfsAux]
  | cons perm rest ih =>
    have hv := h perm (List.mem_cons_self _ _)
    simp only [gfsAux, hv, Bool.false_eq_true, if_false]
    exact ih seen fun p hp => h p (List.mem_cons_of_mem _ hp)

/-- The environment with the rejection-diagnostic flag replaced. -/
def envSetPrintReject (env : Env) (b : Bool) : Env :=
  { env with printReject := b }

/-- The rejection notices are exactly one notice per invalid candidate, in
candidate order, when the diagnostic flag is set, and none otherwise;
duplicate (valid) candidates produce no notice. -/
theorem gfsAux_notices (env : Env) (problemType : PT) (constantParams : Dict)
    (perms : List Dict) (seen : List Solution) :
    (gfsAux env problemType constantParams perms seen).rejectionNotices =
      if env.printReject then
        ((perms.map fun perm =>
            env.mkSolution (buildForkedDict problemType constantParams perm)).filter
          (fun s => !getValid s)).map
          (fun s => "rejecting solution " ++ env.solStr s)
      else [] := by
  induction perms generalizing seen with
  | nil => cases env.printReject <;> simp [gfsAux]
  | cons perm rest ih =>
    cases hv : getValid (env.mkSolution (buildForkedDict problemType constantParams perm)) with
    | true =>
      cases hd : (seen.any fun u =>
          solBeq u (env.mkSolution (buildForkedDict problemType constantParams perm))) with
      | true =>
        simp only [gfsAux, hv, hd, if_true]
        rw [ih seen]
        simp [hv]
      | false =>
        simp only [gfsAux, hv, hd, Bool.false_eq_true, if_false, if_true]
        rw [ih]
        simp [hv]
    | false =>
      simp only [gfsAux, hv, Bool.false_eq_true, if_false]
      rw [ih seen]
      cases hp : env.printReject <;> simp [hv, hp]

/-- The solution list the loop keeps does not depend on the diagnostic
flag. -/
theorem gfsAux_solutions_flag_independent (env : Env) (b : Bool) (problemType : PT)
    (constantParams : Dict) (perms : List Dict) (seen : List Solution) :
    (gfsAux (envSetPrintReject env b) problemType constantParams perms seen).solutions =
      (gfsAux env problemType constantParams perms seen).solutions := by
  induction perms generalizing seen with
  | nil => simp [gfsAux]
  | cons perm rest ih =>
    have hmk : (envSetPrintReject env b).mkSolution = env.mkSolution := rfl
    cases hv : getValid (env.mkSolution (buildForkedDict problemType constantParams perm)) with
    | true =>
      cases hd : (seen.any fun u =>
          solBeq u (env.mkSolution (buildForkedDict problemType constantParams perm))) with
      | true =>
        simp only [gfsAux, hmk, hv, hd, if_true]
        exact ih seen
      | false =>
        simp only [gfsAux, hmk, hv, hd, Bool.false_eq_true, if_false, if_true]
        rw [ih]
    | false =>
      simp only [gfsAux, hmk, hv, Bool.false_eq_true, if_false]
      exact ih seen

/-- Claim C7 (amended): when the diagnostic flag is set,
`generateForkedSolutions` emits exactly one rejection notice per invalid
candidate, in candidate order — duplicate valid candidates are dropped
silently, with no notice — and the notices have no effect on the returned
solution list (which is the same for any value of the flag). -/
theorem generateForkedSolutions_notices_invalid_only (env : Env) (problemType : PT)
    (constantParams : Dict) (forkPermutations : List Dict) :
    ((generateForkedSolutions env problemType constantParams
        forkPermutations).rejectionNotices =
      if env.printReject then
        ((forkPermutations.map fun perm =>
            env.mkSolution (buildForkedDict problemType constantParams perm)).filter
          (fun s => !getValid s)).map
          (fun s => "rejecting solution " ++ env.solStr s)
      else []) ∧
    ∀ b : Bool,
      (generateForkedSolutions (envSetPrintReject env b) problemType constantParams
        forkPermutations).solutions =
      (generateForkedSolutions env problemType constantParams forkPermutations).solutions :=
  ⟨gfsAux_notices env problemType constantParams forkPermutations [],
   fun b => gfsAux_solutions_flag_independent env b problemType constantParams
     forkPermutations []⟩

/-- Claim C7 (counterexample): with the diagnostic flag set, a run whose two
fork permutations yield the same valid candidate keeps one solution and emits
no rejection notice at all — the duplicate candidate is rejected silently,
contradicting "exactly one rejection notice ... for every duplicate
candidate". -/
theorem duplicate_candidate_emits_no_notice :
    sampleEnv.printReject = true ∧
    (generateForkedSolutions sampleEnv [("OperationType", PVal.s "GEMM")] []
      [[], []]).solutions.length = 1 ∧
    (generateForkedSolutions sampleEnv [("OperationType", PVal.s "GEMM")] []
      [[], []]).rejectionNotices = [] := by
  refine ⟨rfl, ?_, ?_⟩ <;> rfl

/-- A custom kernel that loads without a parameter error and whose stored
`ProblemType` equals the benchmark's. -/
def kernelResolvesAndMatches (env : Env) (problemType : PT) (n : String) : Bool :=
  match getCustomKernelSolutionObj env n with
  | Except.ok s => ptBeq (getSolutionPT s) problemType
  | Except.error _ => false

/-- Claim C3: for a custom kernel whose stored `ProblemType` differs from the
benchmark's (`sol` its resolved solution object), with every kernel before it
resolving and matching: with `failOnMismatch = true`, resolution aborts
fatally carrying the two asymmetric item-set differences (the entries present
in one `ProblemType` but not the other); with `failOnMismatch = false`, that
kernel contributes zero solutions — resolution is identical to resolution of
the list with the kernel removed. -/
theorem generateCustomKernelSolutions_mismatch (env : Env) (problemType : PT)
    (ns1 : List String) (kernelName : String) (ns2 : List String) (sol : Solution)
    (hpre : ∀ n ∈ ns1, kernelResolvesAndMatches env problemType n = true)
    (hk : getCustomKernelSolutionObj env kernelName = Except.ok sol)
    (hmm : ptBeq (getSolutionPT sol) problemType = false) :
    (generateCustomKernelSolutions env problemType (ns1 ++ kernelName :: ns2) true).fatal =
      some (Fatal.customKernelMismatch kernelName
        (ptSetDiff problemType (getSolutionPT sol))
        (ptSetDiff (getSolutionPT sol) problemType)) ∧
    generateCustomKernelSolutions env problemType (ns1 ++ kernelName :: ns2) false =
      generateCustomKernelSolutions env problemType (ns1 ++ ns2) false := by
  induction ns1 with
  | nil =>
    constructor
    · simp [generateCustomKernelSolutions, hk, hmm]
    · simp [generateCustomKernelSolutions, hk, hmm]
  | cons n ns1 ih =>
    have hn := hpre n (List.mem_cons_self _ _)
    have hrest : ∀ m ∈ ns1, kernelResolvesAndMatches env problemType m = true :=
      fun m hm => hpre m (List.mem_cons_of_mem _ hm)
    obtain ⟨hfat, heq⟩ := ih hrest
    unfold kernelResolvesAndMatches at hn
    cases hobj : getCustomKernelSolutionObj env n with
    | error f => rw [hobj] at hn; exact absurd hn (by simp)
    | ok s =>
      rw [hobj] at hn
      simp only [] at hn
      constructor
      · simp only [List.cons_append, generateCustomKernelSolutions, hobj]
        cases hv : getValid s <;> simp [hv, hn, hfat]
      · simp only [List.cons_append, generateCustomKernelSolutions, hobj]
        cases hv : getValid s <;> simp [hv, hn, heq]

/-- A benchmark `ProblemType` for closed evaluations. -/
def ptGemm : PT := [("OperationType", PVal.s "GEMM"), ("Batched", PVal.b true)]

/-- A differing custom-kernel `ProblemType` for closed evaluations. -/
def ptConv : PT := [("OperationType", PVal.s "Conv"), ("Batched", PVal.b true)]

/-- An environment whose custom-kernel store has one kernel with a differing
`ProblemType` and one with the matching `ProblemType`. -/
def ckEnv : Env :=
  { sampleEnv with
    getCustomKernelConfig := fun n =>
      if n = "badKernel" then [("ProblemType", SVal.pt ptConv)]
      else [("ProblemType", SVal.pt ptGemm)] }

/-- The resolved solution object of the mismatching custom kernel in
`ckEnv`. -/
def ckBadSol : Solution :=
  ⟨[("ProblemType", SVal.pt ptConv),
    ("KernelLanguage", SVal.pv (PVal.s "Assembly")),
    ("CustomKernelName", SVal.pv (PVal.s "badKernel")),
    ("Valid", SVal.pv (PVal.b true))]⟩

/-- Claim C3 (witness): the mismatch behavior evaluated on a concrete store
with one mismatching and one matching custom kernel. -/
theorem generateCustomKernelSolutions_mismatch_witness :
    (generateCustomKernelSolutions ckEnv ptGemm ([] ++ "badKernel" :: ["goodKernel"])
        true).fatal =
      some (Fatal.customKernelMismatch "badKernel"
        (ptSetDiff ptGemm (getSolutionPT ckBadSol))
        (ptSetDiff (getSolutionPT ckBadSol) ptGemm)) ∧
    generateCustomKernelSolutions ckEnv ptGemm ([] ++ "badKernel" :: ["goodKernel"]) false =
      generateCustomKernelSolutions ckEnv ptGemm ([] ++ ["goodKernel"]) false :=
  generateCustomKernelSolutions_mismatch ckEnv ptGemm [] "badKernel" ["goodKernel"] ckBadSol
    (by simp) (by rfl) (by rfl)

/-- Claim C5: on a solution set whose problem type (read from the first
solution) has tile-aware selection enabled, with maximum `MacroTile0 = 128`
and maximum `MacroTile1 = 64` over the (pruned) solutions and reduction sizes
`[256, 512]`, `writeBenchmarkFiles` writes the client configuration from
synthetic exact sizes `M = 36*128 = 4608`, `N = 36*64 = 2304`, `K ∈ {256,
512}` — with an extra batch dimension of 1 when the problem type is batched —
regardless of the caller-supplied problem sizes. -/
theorem writeBenchmarkFiles_tileAware_sizes (env : Env) (stepBaseDir : String)
    (s0 : Solution) (rest : List Solution) (problemSizes : ProblemSizes) (stepName : String)
    (hta : ptTruthy (getSolutionPT s0) "TileAwareSelection" = true)
    (hm0 : maxMacroTile0 (env.prune (s0 :: rest)) = 128)
    (hm1 : maxMacroTile1 (env.prune (s0 :: rest)) = 64) :
    (writeBenchmarkFiles env stepBaseDir (s0 :: rest) problemSizes stepName
        [256, 512]).config =
      some (ClientConfig.mk true (env.prune (s0 :: rest))
        (ProblemSizes.mk
          (if ptTruthy (getSolutionPT s0) "Batched" then
            [SizeSpec.exact [4608, 2304, 1, 256], SizeSpec.exact [4608, 2304, 1, 512]]
          else
            [SizeSpec.exact [4608, 2304, 256], SizeSpec.exact [4608, 2304, 512]]))
        stepName stepBaseDir true) := by
  simp only [writeBenchmarkFiles, hta, if_true, idealSizesFor, hm0, hm1]
  cases hb : ptTruthy (getSolutionPT s0) "Batched" <;> simp [hb]

/-- A solution whose problem type has tile-aware selection enabled and whose
tiles are 128 × 64, for closed evaluations. -/
def tileSol : Solution :=
  ⟨[("ProblemType", SVal.pt
      [("TileAwareSelection", PVal.b true), ("Batched", PVal.b true)]),
    ("MacroTile0", SVal.pv (PVal.n 128)),
    ("MacroTile1", SVal.pv (PVal.n 64)),
    ("Valid", SVal.pv (PVal.b true))]⟩

/-- Claim C5 (witness): the tile-aware synthetic sizing evaluated on a
concrete batched solution set with caller-supplied sizes that differ from the
synthetic ones. -/
theorem writeBenchmarkFiles_tileAware_sizes_witness :
    (writeBenchmarkFiles sampleEnv "base/step" [tileSol]
        (ProblemSizes.mk [SizeSpec.exact [1024, 1024, 1, 1024]]) "step"
        [256, 512]).config =
      some (ClientConfig.mk true (sampleEnv.prune [tileSol])
        (ProblemSizes.mk
          (if ptTruthy (getSolutionPT tileSol) "Batched" then
            [SizeSpec.exact [4608, 2304, 1, 256], SizeSpec.exact [4608, 2304, 1, 512]]
          else
            [SizeSpec.exact [4608, 2304, 256], SizeSpec.exact [4608, 2304, 512]]))
        "step" "base/step" true) :=
  writeBenchmarkFiles_tileAware_sizes sampleEnv "base/step" tileSol []
    (ProblemSizes.mk [SizeSpec.exact [1024, 1024, 1, 1024]]) "step"
    (by rfl) (by rfl) (by rfl)

/-- With an empty `solutionSummationSizes` list, the tile-aware branch of
`writeBenchmarkFiles` derives an empty synthetic size list, and the non-tile
branch passes the caller's sizes through. -/
theorem writeBenchmarkFiles_config_empty_summation (env : Env) (stepBaseDir : String)
    (solutions : List Solution) (problemSizes : ProblemSizes) (stepName : String)
    (cfg : ClientConfig)
    (h : (writeBenchmarkFiles env stepBaseDir solutions problemSizes stepName []).config =
      some cfg) :
    (cfg.useTileSelection = true → cfg.problemSizes = ProblemSizes.mk []) ∧
    (cfg.useTileSelection = false → cfg.problemSizes = problemSizes) := by
  cases solutions with
  | nil => simp [writeBenchmarkFiles] at h
  | cons s0 rest =>
    cases hta : ptTruthy (getSolutionPT s0) "TileAwareSelection" with
    | true =>
      simp [writeBenchmarkFiles, hta, idealSizesFor] at h
      rw [← h]
      simp
    | false =>
      simp [writeBenchmarkFiles, hta] at h
      rw [← h]
      simp

/-- Every client configuration written during a step is the one
`writeBenchmarkFiles` produced for the step's (enumerated) solutions with an
empty `solutionSummationSizes` list — the literal `[]` `benchmarkProblemType`
passes. -/
theorem runStep_configWrite_mem (env : Env) (problemType : PT) (ets : Bool)
    (st : BPState) (step : BenchmarkStep) (cfg : ClientConfig)
    (h : Event.clientConfigWrite cfg ∈ (runStep env problemType ets st step).events) :
    (writeBenchmarkFiles env (pathJoin (st.stack ++ [step.name]))
      ((generateForkedSolutions env problemType step.constantParams
          (env.constructForkPerms step.forkParams)).solutions ++
        (generateCustomKernelSolutions env problemType step.customKernels
          (!step.customKernelWildcard)).solutions)
      step.problemSizes step.name []).config = some cfg := by
  simp only [runStep] at h
  set kc := generateCustomKernelSolutions env problemType step.customKernels
    (!step.customKernelWildcard) with hkc
  set reg := (generateForkedSolutions env problemType step.constantParams
    (env.constructForkPerms step.forkParams)).solutions with hreg
  set wbf := writeBenchmarkFiles env (pathJoin (st.stack ++ [step.name]))
    (reg ++ kc.solutions) step.problemSizes step.name [] with hwbf
  cases hkf : kc.fatal with
  | some f => simp [hkf] at h
  | none =>
    rw [hkf] at h
    by_cases hlen : (reg ++ kc.solutions).length = 0
    · simp [hlen] at h
    · simp only [hlen, if_false, if_neg hlen] at h
      cases hwf : wbf.fatal with
      | some f =>
        rw [hwf] at h
        cases hcf : wbf.config with
        | some c =>
          simp [hcf] at h
          rw [h]
        | none => simp [hcf] at h
      | none =>
        rw [hwf] at h
        cases hcf : wbf.config with
        | some c =>
          cases hcl : (!env.fileExists (stepResultsBase st.stack step.name ++ ".csv") ||
              env.forceRedo) with
          | true =>
            simp [hcf, hcl] at h
            rw [h]
          | false =>
            simp [hcf, hcl] at h
            rw [h]
        | none =>
          cases hcl : (!env.fileExists (stepResultsBase st.stack step.name ++ ".csv") ||
              env.forceRedo) with
          | true => simp [hcf, hcl] at h
          | false => simp [hcf, hcl] at h

/-- Claim C10: `benchmarkProblemType` passes an empty
`solutionSummationSizes` list to `writeBenchmarkFiles` in every step, so every
client configuration a step writes has an empty problem-size list whenever
tile-aware selection is enabled for the step's problem type (and the caller's
sizes otherwise). -/
theorem runStep_tileAware_config_has_no_sizes (env : Env) (problemType : PT) (ets : Bool)
    (st : BPState) (step : BenchmarkStep) (cfg : ClientConfig)
    (h : Event.clientConfigWrite cfg ∈ (runStep env problemType ets st step).events) :
    (cfg.useTileSelection = true → cfg.problemSizes = ProblemSizes.mk []) ∧
    (cfg.useTileSelection = false → cfg.problemSizes = step.problemSizes) :=
  writeBenchmarkFiles_config_empty_summation env (pathJoin (st.stack ++ [step.name])) _
    step.problemSizes step.name cfg (runStep_configWrite_mem env problemType ets st step cfg h)

/-- A tile-aware problem type for closed evaluations. -/
def ptTileW : PT := [("TileAwareSelection", PVal.b true), ("Batched", PVal.b true)]

/-- A pipeline state for closed step evaluations. -/
def stW : BPState := ⟨["work", "1_BenchmarkProblems", "G_00"], 0, none⟩

/-- A benchmark step with caller-supplied problem sizes for closed
evaluations. -/
def stepW : BenchmarkStep :=
  ⟨"StepTile", [], [], [], true, ⟨[SizeSpec.exact [100, 100, 1, 100]]⟩, true⟩

/-- The solution enumerated for `stepW` under `sampleEnv` and `ptTileW`. -/
def solW : Solution :=
  ⟨[("ProblemType", SVal.pt ptTileW), ("Valid", SVal.pv (PVal.b true))]⟩

/-- The client configuration `stepW` writes under `sampleEnv`: tile-aware,
with zero problem sizes. -/
def cfgW : ClientConfig :=
  ⟨true, [solW], ⟨[]⟩, "StepTile", "work/1_BenchmarkProblems/G_00/StepTile", true⟩

/-- Claim C10 (witness): a concrete tile-aware step writes its client
configuration with an empty problem-size list, although the caller supplied a
non-empty one. -/
theorem runStep_tileAware_config_has_no_sizes_witness :
    cfgW.useTileSelection = true ∧ cfgW.problemSizes = ProblemSizes.mk [] :=
  ⟨rfl, (runStep_tileAware_config_has_no_sizes sampleEnv ptTileW false stW stepW cfgW
    (by decide)).1 rfl⟩

/-- Claim C2: in a benchmark step that completes without a fatal abort, if
the step's results-table file (results base + ".csv") already exists and the
force-redo flag is unset, the benchmarking client is not invoked; and the
solution-descriptor side-car file (results base + ".yaml") is written for the
step whether the client ran or was skipped. -/
theorem runStep_cacheSkip_and_persist (env : Env) (problemType : PT) (ets : Bool)
    (st : BPState) (step : BenchmarkStep)
    (hok : (runStep env problemType ets st step).fatal = none) :
    (env.forceRedo = false →
      env.fileExists (stepResultsBase st.stack step.name ++ ".csv") = true →
      (runStep env problemType ets st step).events.any isClientRunEv = false) ∧
    (∃ sols, Event.solutionsYamlWrite (stepResultsBase st.stack step.name ++ ".yaml")
      step.problemSizes sols ∈ (runStep env problemType ets st step).events) := by
  simp only [runStep] at hok ⊢
  set kc := generateCustomKernelSolutions env problemType step.customKernels
    (!step.customKernelWildcard) with hkc
  set reg := (generateForkedSolutions env problemType step.constantParams
    (env.constructForkPerms step.forkParams)).solutions with hreg
  set wbf := writeBenchmarkFiles env (pathJoin (st.stack ++ [step.name]))
    (reg ++ kc.solutions) step.problemSizes step.name [] with hwbf
  cases hkf : kc.fatal with
  | some f => simp [hkf] at hok
  | none =>
    simp only [hkf] at hok ⊢
    by_cases hlen : (reg ++ kc.solutions).length = 0
    · simp [hlen] at hok
    · simp only [if_neg hlen] at hok ⊢
      cases hwf : wbf.fatal with
      | some f => simp [hwf] at hok
      | none =>
        simp only [hwf] at hok ⊢
        constructor
        · intro hfr hfe
          cases hcf : wbf.config <;>
            simp [hcf, hfe, hfr, isClientRunEv]
        · refine ⟨wbf.solutions, ?_⟩
          cases hcl : (!env.fileExists (stepResultsBase st.stack step.name ++ ".csv") ||
              env.forceRedo) <;>
            cases hcf : wbf.config <;>
              simp [hcl, hcf]

/-- An environment whose results cache already holds every file. -/
def envC2 : Env := { sampleEnv with fileExists := fun _ => true }

/-- Claim C2 (witness): a concrete completed step with an existing results
table and the force-redo flag unset never runs the client yet writes the
side-car descriptor file. -/
theorem runStep_cacheSkip_and_persist_witness :
    (runStep envC2 ptGemm false stW stepW).fatal = none ∧
    (runStep envC2 ptGemm false stW stepW).events.any isClientRunEv = false ∧
    (∃ sols, Event.solutionsYamlWrite (stepResultsBase stW.stack stepW.name ++ ".yaml")
      stepW.problemSizes sols ∈ (runStep envC2 ptGemm false stW stepW).events) := by
  have hok : (runStep envC2 ptGemm false stW stepW).fatal = none := by decide
  have h := runStep_cacheSkip_and_persist envC2 ptGemm false stW stepW hok
  exact ⟨hok, h.1 rfl rfl, h.2⟩

/-- Claim C9: a benchmark step that completes without a fatal abort restores
the working-directory stack to its pre-step value, with exactly two
`pushWorkingPath` events (the step directory and its `source` subdirectory)
and exactly two matching `popWorkingPath` events, on every non-fatal path —
cache-skip and failing-client paths included. -/
theorem runStep_stack_balanced (env : Env) (problemType : PT) (ets : Bool)
    (st : BPState) (step : BenchmarkStep)
    (hok : (runStep env problemType ets st step).fatal = none) :
    (runStep env problemType ets st step).state.stack = st.stack ∧
    (runStep env problemType ets st step).events.countP isPushEv = 2 ∧
    (runStep env problemType ets st step).events.countP isPopEv = 2 := by
  simp only [runStep] at hok ⊢
  set kc := generateCustomKernelSolutions env problemType step.customKernels
    (!step.customKernelWildcard) with hkc
  set reg := (generateForkedSolutions env problemType step.constantParams
    (env.constructForkPerms step.forkParams)).solutions with hreg
  set wbf := writeBenchmarkFiles env (pathJoin (st.stack ++ [step.name]))
    (reg ++ kc.solutions) step.problemSizes step.name [] with hwbf
  cases hkf : kc.fatal with
  | some f => simp [hkf] at hok
  | none =>
    simp only [hkf] at hok ⊢
    by_cases hlen : (reg ++ kc.solutions).length = 0
    · simp [hlen] at hok
    · simp only [if_neg hlen] at hok ⊢
      cases hwf : wbf.fatal with
      | some f => simp [hwf] at hok
      | none =>
        simp only [hwf] at hok ⊢
        refine ⟨by trivial, ?_⟩
        cases hcl : (!env.fileExists (stepResultsBase st.stack step.name ++ ".csv") ||
            env.forceRedo) <;>
          cases hcf : wbf.config <;>
            simp [hcl, hcf, isPushEv, isPopEv]

/-- Claim C9 (witness): stack restoration and push/pop balance on a concrete
step whose client runs and returns non-zero. -/
theorem runStep_stack_balanced_witness :
    (runStep { sampleEnv with runClientRet := fun _ => 3 } ptGemm false stW stepW).fatal =
      none ∧
    (runStep { sampleEnv with runClientRet := fun _ => 3 } ptGemm false stW
      stepW).state.stack = stW.stack := by
  have hok : (runStep { sampleEnv with runClientRet := fun _ => 3 } ptGemm false stW
      stepW).fatal = none := by decide
  exact ⟨hok, (runStep_stack_balanced { sampleEnv with runClientRet := fun _ => 3 } ptGemm
    false stW stepW hok).1⟩

/-- Claim C4: in a step whose enumeration and materialization succeed and
whose client is invoked (no cached results table, or force-redo set) and
returns a non-zero exit code, the step completes non-fatally with the failure
counter incremented by exactly one, the working-directory stack restored, and
the persist phase still performed — a non-zero client return never aborts the
pipeline by itself. -/
theorem runStep_clientFailure_counted (env : Env) (problemType : PT) (ets : Bool)
    (st : BPState) (step : BenchmarkStep)
    (hkc : (generateCustomKernelSolutions env problemType step.customKernels
      (!step.customKernelWildcard)).fatal = none)
    (hlen : ¬((generateForkedSolutions env problemType step.constantParams
        (env.constructForkPerms step.forkParams)).solutions ++
      (generateCustomKernelSolutions env problemType step.customKernels
        (!step.customKernelWildcard)).solutions).length = 0)
    (hwbf : (writeBenchmarkFiles env (pathJoin (st.stack ++ [step.name]))
      ((generateForkedSolutions env problemType step.constantParams
          (env.constructForkPerms step.forkParams)).solutions ++
        (generateCustomKernelSolutions env problemType step.customKernels
          (!step.customKernelWildcard)).solutions)
      step.problemSizes step.name []).fatal = none)
    (hrun : env.forceRedo = true ∨
      env.fileExists (stepResultsBase st.stack step.name ++ ".csv") = false)
    (hret : env.runClientRet step.name ≠ 0) :
    (runStep env problemType ets st step).fatal = none ∧
    (runStep env problemType ets st step).state.fails = st.fails + 1 ∧
    (runStep env problemType ets st step).state.stack = st.stack ∧
    Event.clientRun step.name ets (env.runClientRet step.name) ∈
      (runStep env problemType ets st step).events ∧
    (runStep env problemType ets st step).events.any isYamlWriteEv = true := by
  simp only [runStep, hkc, if_neg hlen, hwbf]
  have hcond : (!env.fileExists (stepResultsBase st.stack step.name ++ ".csv") ||
      env.forceRedo) = true := by
    rcases hrun with h | h <;> simp [h]
  simp only [hcond, if_pos hret]
  cases hcf : (writeBenchmarkFiles env (pathJoin (st.stack ++ [step.name]))
      ((generateForkedSolutions env problemType step.constantParams
          (env.constructForkPerms step.forkParams)).solutions ++
        (generateCustomKernelSolutions env problemType step.customKernels
          (!step.customKernelWildcard)).solutions)
      step.problemSizes step.name []).config <;>
    simp [hcf, hret, isYamlWriteEv]

/-- Claim C4 (witness): a concrete step whose client returns exit code 3 is
counted as exactly one failure and still persists and balances the stack. -/
theorem runStep_clientFailure_counted_witness :
    (runStep { sampleEnv with runClientRet := fun _ => 3 } ptGemm false stW stepW).fatal =
      none ∧
    (runStep { sampleEnv with runClientRet := fun _ => 3 } ptGemm false stW
      stepW).state.fails = stW.fails + 1 ∧
    (runStep { sampleEnv with runClientRet := fun _ => 3 } ptGemm false stW
      stepW).state.stack = stW.stack ∧
    Event.clientRun stepW.name false
        (({ sampleEnv with runClientRet := fun _ => 3 } : Env).runClientRet stepW.name) ∈
      (runStep { sampleEnv with runClientRet := fun _ => 3 } ptGemm false stW
        stepW).events ∧
    (runStep { sampleEnv with runClientRet := fun _ => 3 } ptGemm false stW
      stepW).events.any isYamlWriteEv = true := by
  have h := runStep_clientFailure_counted { sampleEnv with runClientRet := fun _ => 3 }
    ptGemm false stW stepW (by rfl) (by decide) (by rfl) (Or.inr rfl) (by decide)
  exact ⟨h.1, h.2.1, h.2.2.1, h.2.2.2.1, h.2.2.2.2⟩

/-- Claim C6: if every fork permutation yields an invalid candidate,
`generateForkedSolutions` returns the empty list, and (custom kernels
contributing nothing) the step's enumeration phase aborts fatally — the abort
fires when the concatenation of regular and custom-kernel solutions is
empty. -/
theorem runStep_allInvalid_aborts (env : Env) (problemType : PT) (ets : Bool)
    (st : BPState) (step : BenchmarkStep)
    (hinv : ∀ perm ∈ env.constructForkPerms step.forkParams,
      getValid (env.mkSolution (buildForkedDict problemType step.constantParams perm)) =
        false)
    (hck : generateCustomKernelSolutions env problemType step.customKernels
      (!step.customKernelWildcard) = ⟨[], none⟩) :
    (generateForkedSolutions env problemType step.constantParams
      (env.constructForkPerms step.forkParams)).solutions = [] ∧
    (runStep env problemType ets st step).fatal = some Fatal.zeroValidSolutions := by
  have hreg : (generateForkedSolutions env problemType step.constantParams
      (env.constructForkPerms step.forkParams)).solutions = [] :=
    gfsAux_all_invalid env problemType step.constantParams
      (env.constructForkPerms step.forkParams) [] hinv
  refine ⟨hreg, ?_⟩
  simp [runStep, hck, hreg]

/-- An environment whose single fork permutation yields an invalid
candidate. -/
def envC6 : Env :=
  { sampleEnv with constructForkPerms := fun _ => [[("Reject", SVal.pv (PVal.b true))]] }

/-- Claim C6 (witness): a concrete step whose only permutation is invalid and
whose custom-kernel list is empty aborts with the zero-valid-solutions
diagnostic. -/
theorem runStep_allInvalid_aborts_witness :
    (generateForkedSolutions envC6 ptGemm stepW.constantParams
      (envC6.constructForkPerms stepW.forkParams)).solutions = [] ∧
    (runStep envC6 ptGemm false stW stepW).fatal = some Fatal.zeroValidSolutions :=
  runStep_allInvalid_aborts envC6 ptGemm false stW stepW (by decide) rfl

/-- Claim C8 (counterexample): with a `BenchmarkProcess` of zero steps and no
cached results, `benchmarkProblemType` itself completes as a no-op with a
zero failure count — but the driver does *not* process the pair without
error: `resultsFileBaseFinal` stays `None` and `main` fails evaluating
`resultsFileBase + ".csv"` (a Python `TypeError`). -/
theorem zeroSteps_driver_errors_cex :
    (benchmarkProblemType sampleEnv (mainStack sampleEnv) [] [] 0).fails = 0 ∧
    (benchmarkProblemType sampleEnv (mainStack sampleEnv) [] [] 0).fatal = none ∧
    (mainEntry sampleEnv [([], [])]).error = some MainError.pyTypeErrorNoneBase := by
  refine ⟨?_, ?_, ?_⟩ <;> rfl

/-- Claim C8 (amended): a benchmark process with zero steps is a no-op for
`benchmarkProblemType` — it returns a zero failure count, no fatal abort, and
no final results base — but when the pair is not skipped by the outer cache
check, the driver then terminates with an error (the Python `TypeError` from
concatenating `None` with `".csv"`) while promoting the terminal artifacts. -/
theorem benchmarkProblemType_zeroSteps_noop_driver_fails (env : Env)
    (problemTypeConfig problemSizeGroupConfig : Dict)
    (h0 : (env.mkProcess problemTypeConfig problemSizeGroupConfig).steps = [])
    (hnc : env.fileExists (mainPairBase env problemTypeConfig 0 ++ ".csv") = false) :
    (benchmarkProblemType env (mainStack env) problemTypeConfig
      problemSizeGroupConfig 0).fails = 0 ∧
    (benchmarkProblemType env (mainStack env) problemTypeConfig
      problemSizeGroupConfig 0).fatal = none ∧
    (benchmarkProblemType env (mainStack env) problemTypeConfig
      problemSizeGroupConfig 0).finalBase = none ∧
    (mainEntry env [(problemTypeConfig, [problemSizeGroupConfig])]).error =
      some MainError.pyTypeErrorNoneBase := by
  have hb : benchmarkProblemType env (mainStack env) problemTypeConfig
      problemSizeGroupConfig 0 =
      ⟨none, 0,
        [Event.pushPath (env.ptName (env.mkProcess problemTypeConfig
          problemSizeGroupConfig).problemType ++ "_" ++ pad2 0), Event.popPath], none⟩ := by
    simp [benchmarkProblemType, h0, runSteps]
  refine ⟨by rw [hb], by rw [hb], by rw [hb], ?_⟩
  simp [mainEntry, runEntries, runPairs, runPair, hnc, hb]

/-- Claim C8 (witness): the amended statement evaluated on a concrete
environment whose process has zero steps and whose cache is empty. -/
theorem benchmarkProblemType_zeroSteps_noop_driver_fails_witness :
    (benchmarkProblemType sampleEnv (mainStack sampleEnv) [] [] 0).fails = 0 ∧
    (benchmarkProblemType sampleEnv (mainStack sampleEnv) [] [] 0).fatal = none ∧
    (benchmarkProblemType sampleEnv (mainStack sampleEnv) [] [] 0).finalBase = none ∧
    (mainEntry sampleEnv [([], [[]])]).error = some MainError.pyTypeErrorNoneBase :=
  benchmarkProblemType_zeroSteps_noop_driver_fails sampleEnv [] [] rfl rfl

end BenchmarkProblems
